import Mathlib

/-!
Shallow embedding of the chess-clock timer state machine from
`src/hooks/useChessClock.ts`.

Numbers held in React state (settings fields, remaining times) are modelled
as `Int` (the source works with JS integer values).  Each React callback of
the hook becomes a pure state-transition function on `ClockState`; the
batched `setX` calls of one callback are collapsed into a single transition.
The once-per-second `setInterval` callback (active only while `isRunning`
and `activePlayer` are set, exactly as the enclosing effect guards it)
becomes the `tick` transition.  Audible threshold notifications are
modelled as a list of emitted `BeepEvent`s.  JS strings (for `formatTime`)
are modelled as `List Char`.
-/

/-! State, operations and auxiliary definitions. -/

inductive PlayerKey
  | p1
  | p2
deriving DecidableEq, Repr

def PlayerKey.other : PlayerKey → PlayerKey
  | .p1 => .p2
  | .p2 => .p1

inductive Theme
  | light
  | dark
deriving DecidableEq, Repr

structure Settings where
  p1Minutes : Int
  p1Seconds : Int
  p2Minutes : Int
  p2Seconds : Int
  increment : Int
  sameTime : Bool
  theme : Theme
deriving DecidableEq, Repr

def defaultSettings : Settings :=
  { p1Minutes := 10
    p1Seconds := 0
    p2Minutes := 10
    p2Seconds := 0
    increment := 5
    sameTime := true
    theme := .light }

structure BeepFlags where
  thirty : Bool
  ten : Bool
deriving DecidableEq, Repr

structure BeepState where
  p1 : BeepFlags
  p2 : BeepFlags
deriving DecidableEq, Repr

def emptyBeepState : BeepState :=
  { p1 := { thirty := false, ten := false }
    p2 := { thirty := false, ten := false } }

def BeepState.get (b : BeepState) : PlayerKey → BeepFlags
  | .p1 => b.p1
  | .p2 => b.p2

def BeepState.set (b : BeepState) : PlayerKey → BeepFlags → BeepState
  | .p1, f => { b with p1 := f }
  | .p2, f => { b with p2 := f }

structure Times where
  p1 : Int
  p2 : Int
deriving DecidableEq, Repr

def Times.get (t : Times) : PlayerKey → Int
  | .p1 => t.p1
  | .p2 => t.p2

def toSeconds (minutes seconds : Int) : Int :=
  minutes * 60 + seconds

def clampNumber (value lo hi : Int) : Int :=
  min hi (max lo value)

/-- The full clock state of the hook that the modelled operations read and
write: the saved settings plus active player, started/running flags,
remaining times and the one-shot beep flags. -/
structure ClockState where
  settings : Settings
  activePlayer : Option PlayerKey
  hasStarted : Bool
  isRunning : Bool
  times : Times
  beeped : BeepState
deriving DecidableEq, Repr

inductive BeepKind
  | thirty
  | ten
deriving DecidableEq, Repr

structure BeepEvent where
  player : PlayerKey
  kind : BeepKind
deriving DecidableEq, Repr

/-- `maybeBeepAt` from the tick effect: given the just-ticked player and the
post-decrement remaining value, fire the 30s/10s one-shot notifications and
update the beep flags.  The `ten` branch rebuilds the player entry from the
`playerState` read at entry (exactly as the source spreads the stale
`playerState`), which is observationally irrelevant since `nextTime` cannot
be 30 and 10 at once. -/
def maybeBeepAt (player : PlayerKey) (nextTime : Int) (b : BeepState) :
    BeepState × List BeepEvent :=
  if nextTime ≤ 0 then (b, [])
  else
    let playerState := b.get player
    let fire30 : Bool := nextTime == 30 && !playerState.thirty
    let b1 := if fire30 then b.set player { playerState with thirty := true } else b
    let evs1 : List BeepEvent := if fire30 then [⟨player, .thirty⟩] else []
    let fire10 : Bool := nextTime == 10 && !playerState.ten
    let b2 := if fire10 then b1.set player { playerState with ten := true } else b1
    let evs2 : List BeepEvent := if fire10 then [⟨player, .ten⟩] else []
    (b2, evs1 ++ evs2)

/-- The once-per-second interval callback, guarded as the enclosing effect
is: it exists only while `isRunning` and `activePlayer` are set.  Decrements
the active player's remaining time by 1, floored at 0; fires threshold
notifications on the post-decrement value; stops the clock when it hits 0. -/
def tick (s : ClockState) : ClockState × List BeepEvent :=
  if s.isRunning then
    match s.activePlayer with
    | none => (s, [])
    | some activePlayer =>
      let current := s.times.get activePlayer
      let nextTime := max 0 (current - 1)
      let fired := maybeBeepAt activePlayer nextTime s.beeped
      let running := if nextTime = 0 then false else s.isRunning
      let newTimes :=
        if activePlayer = PlayerKey.p1 then { s.times with p1 := nextTime }
        else { s.times with p2 := nextTime }
      ({ s with times := newTimes, isRunning := running, beeped := fired.1 }, fired.2)
  else (s, [])

/-- `handleSwitch`: while running and started with an active player whose
time is nonzero, credit the increment to the active player and flip
`activePlayer`; otherwise do nothing. -/
def handleSwitch (s : ClockState) : ClockState :=
  if !s.isRunning then s
  else if !s.hasStarted then s
  else
    match s.activePlayer with
    | none => s
    | some activePlayer =>
      if (activePlayer = PlayerKey.p1 ∧ s.times.p1 = 0) ∨
          (activePlayer = PlayerKey.p2 ∧ s.times.p2 = 0) then s
      else
        { s with
          times :=
            if activePlayer = PlayerKey.p1 then
              { s.times with p1 := s.times.p1 + s.settings.increment }
            else
              { s.times with p2 := s.times.p2 + s.settings.increment }
          activePlayer := some (if activePlayer = PlayerKey.p1 then PlayerKey.p2 else PlayerKey.p1) }

/-- `handleSaveSetup`: normalise the setup form values (clamping fields and
copying player 1's time onto player 2 under `sameTime`), install them as the
settings, reload both remaining times from them, clear the game flags and
the beep flags. -/
def handleSaveSetup (setup : Settings) (s : ClockState) : ClockState :=
  let normalized0 : Settings :=
    { setup with
      p1Minutes := clampNumber setup.p1Minutes 0 999
      p1Seconds := clampNumber setup.p1Seconds 0 59
      p2Minutes := clampNumber setup.p2Minutes 0 999
      p2Seconds := clampNumber setup.p2Seconds 0 59
      increment := clampNumber setup.increment 0 999
      sameTime := setup.sameTime }
  let normalized : Settings :=
    if normalized0.sameTime then
      { normalized0 with p2Minutes := normalized0.p1Minutes, p2Seconds := normalized0.p1Seconds }
    else normalized0
  { s with
    settings := normalized
    times :=
      { p1 := toSeconds normalized.p1Minutes normalized.p1Seconds
        p2 := toSeconds normalized.p2Minutes normalized.p2Seconds }
    activePlayer := none
    hasStarted := false
    isRunning := false
    beeped := emptyBeepState }

/-- `startFrom`: unless both remaining times are zero, make `player` active
and start the countdown.  (The source checks only the times; it does not
check `hasStarted`.) -/
def startFrom (player : PlayerKey) (s : ClockState) : ClockState :=
  if s.times.p1 = 0 ∧ s.times.p2 = 0 then s
  else { s with activePlayer := some player, hasStarted := true, isRunning := true }

/-- `resetClock`: reload both remaining times from the saved settings, clear
the active player and the game flags, clear the beep flags (`resetBeeps`). -/
def resetClock (s : ClockState) : ClockState :=
  { s with
    times :=
      { p1 := toSeconds s.settings.p1Minutes s.settings.p1Seconds
        p2 := toSeconds s.settings.p2Minutes s.settings.p2Seconds }
    activePlayer := none
    hasStarted := false
    isRunning := false
    beeped := emptyBeepState }

/-- `toggleRunning`: flip `isRunning`, but only when the game has started,
a player is active, and that player's remaining time is nonzero. -/
def toggleRunning (s : ClockState) : ClockState :=
  if !s.hasStarted then s
  else
    match s.activePlayer with
    | none => s
    | some activePlayer =>
      if (activePlayer = PlayerKey.p1 ∧ s.times.p1 = 0) ∨
          (activePlayer = PlayerKey.p2 ∧ s.times.p2 = 0) then s
      else { s with isRunning := !s.isRunning }

/-- The public operations a client of the hook can perform, plus the
autonomous per-second tick. -/
inductive ClockOp
  | startFrom (player : PlayerKey)
  | handleSwitch
  | toggleRunning
  | resetClock
  | handleSaveSetup (setup : Settings)
  | tick
deriving DecidableEq, Repr

/-- Apply one operation, collecting the threshold notifications it emits. -/
def applyOpE (s : ClockState) : ClockOp → ClockState × List BeepEvent
  | .startFrom player => (startFrom player s, [])
  | .handleSwitch => (handleSwitch s, [])
  | .toggleRunning => (toggleRunning s, [])
  | .resetClock => (resetClock s, [])
  | .handleSaveSetup setup => (handleSaveSetup setup s, [])
  | .tick => tick s

def applyOp (s : ClockState) (op : ClockOp) : ClockState :=
  (applyOpE s op).1

def runOps (s : ClockState) (ops : List ClockOp) : ClockState :=
  ops.foldl applyOp s

/-- All threshold notifications emitted along a run. -/
def runEvents (s : ClockState) : List ClockOp → List BeepEvent
  | [] => []
  | op :: ops => (applyOpE s op).2 ++ runEvents (applyOp s op) ops

/-- A freshly configured state: what the hook's state looks like right
after `handleSaveSetup` ran on the setup form values (the transition writes
every game-relevant field, so the pre-state is irrelevant). -/
def initClock (setup : Settings) : ClockState :=
  handleSaveSetup setup
    { settings := setup
      activePlayer := none
      hasStarted := false
      isRunning := false
      times := { p1 := 0, p2 := 0 }
      beeped := emptyBeepState }

def tickN : Nat → ClockState → ClockState
  | 0, s => s
  | n + 1, s => tickN n (tick s).1

/-- A mid-game running state: default settings, player 1 on the move. -/
def midGameState : ClockState :=
  { settings := defaultSettings
    activePlayer := some .p1
    hasStarted := true
    isRunning := true
    times := { p1 := 600, p2 := 600 }
    beeped := emptyBeepState }

/-- An asymmetric configuration whose player 2 base time is zero. -/
def cfgP2Zero : Settings :=
  { p1Minutes := 0, p1Seconds := 1, p2Minutes := 0, p2Seconds := 0
    increment := 0, sameTime := false, theme := .light }

/-- A run that hands the turn to a player whose remaining time is zero:
configure 0:01 vs 0:00, start player 1, switch. -/
def switchToDeadState : ClockState :=
  runOps (initClock cfgP2Zero) [.startFrom .p1, .handleSwitch]

/-- A paused mid-game state reached by configuring the defaults, starting
player 1 and pausing. -/
def pausedMidGame : ClockState :=
  runOps (initClock defaultSettings) [.startFrom .p1, .toggleRunning]

/-- An all-zero configuration (0:00 for both players). -/
def cfgBothZero : Settings :=
  { p1Minutes := 0, p1Seconds := 0, p2Minutes := 0, p2Seconds := 0
    increment := 5, sameTime := true, theme := .light }

/-- A setup form input with out-of-range fields, used to exercise the
normalisation in `handleSaveSetup`. -/
def cfgOutOfRange : Settings :=
  { p1Minutes := 1000, p1Seconds := -5, p2Minutes := 2, p2Seconds := 3
    increment := -1, sameTime := true, theme := .dark }

/-- The part of the spec's invariant that the code does maintain: a running
clock has started and has an active player. -/
def InvStarted (s : ClockState) : Prop :=
  s.isRunning = true → s.hasStarted = true ∧ s.activePlayer ≠ none

/-- The state right after starting player 1 from the default configuration
(10 minutes each). -/
def runningFromDefault : ClockState :=
  startFrom .p1 (initClock defaultSettings)

def BeepState.getFlag (b : BeepState) (p : PlayerKey) : BeepKind → Bool
  | .thirty => (b.get p).thirty
  | .ten => (b.get p).ten

def thresholdOf : BeepKind → Int
  | .thirty => 30
  | .ten => 10

def eventCount (p : PlayerKey) (k : BeepKind) (evs : List BeepEvent) : Nat :=
  (evs.filter (fun e => decide (e.player = p ∧ e.kind = k))).length

def clearsBeeps : ClockOp → Bool
  | .resetClock => true
  | .handleSaveSetup _ => true
  | _ => false

/-- A mid-game state whose player-1 thirty-second flag is already set. -/
def flaggedState : ClockState :=
  { midGameState with
    beeped := { p1 := { thirty := true, ten := false }
                p2 := { thirty := false, ten := false } } }

/-- Decimal digits of `n`, least significant first: the model of the JS
number-to-string conversion used by `formatTime` (reversed). -/
def natDigitsRev (n : Nat) : List Char :=
  if h : n < 10 then [Nat.digitChar n]
  else Nat.digitChar (n % 10) :: natDigitsRev (n / 10)
decreasing_by
  simp_wf
  omega

/-- The model of JS `String(n)` for a natural number: its decimal digits,
most significant first. -/
def natToChars (n : Nat) : List Char :=
  (natDigitsRev n).reverse

/-- The model of JS `String.prototype.padStart` on our char-list strings. -/
def padStart (s : List Char) (targetLength : Nat) (padChar : Char) : List Char :=
  List.replicate (targetLength - s.length) padChar ++ s

/-- `formatTime` from the source: minutes and seconds fields, each padded
with `'0'` to length 2, joined by `':'`. -/
def formatTime (totalSeconds : Nat) : List Char :=
  padStart (natToChars (totalSeconds / 60)) 2 '0' ++ [':'] ++
    padStart (natToChars (totalSeconds % 60)) 2 '0'

/-- Modelled from the spec side of the claim: a field zero-padded to at
least two digits. -/
def zeroPad2 (n : Nat) : List Char :=
  if n < 10 then '0' :: natToChars n else natToChars n

/-- Numeric value of a decimal digit character. -/
def digitVal (c : Char) : Nat :=
  c.toNat - '0'.toNat

/-- Decimal value of a digit string, most significant digit first. -/
def charsToNat (s : List Char) : Nat :=
  s.foldl (fun acc c => 10 * acc + digitVal c) 0

/-! Theorems: the claims and their supporting lemmas. -/

/-- Claim C3: while running and started with active player `p` whose time is
nonzero, `handleSwitch` credits exactly the configured increment to `p`,
leaves the other player's time unchanged and makes the other player active;
while paused (`isRunning = false`) or expired (active player's time zero) it
changes nothing. -/
theorem c3_handleSwitch :
    (∀ (s : ClockState) (p : PlayerKey), s.isRunning = true → s.hasStarted = true →
      s.activePlayer = some p → s.times.get p ≠ 0 →
      (handleSwitch s).times.get p = s.times.get p + s.settings.increment ∧
      (handleSwitch s).times.get p.other = s.times.get p.other ∧
      (handleSwitch s).activePlayer = some p.other) ∧
    (∀ s : ClockState, s.isRunning = false → handleSwitch s = s) ∧
    (∀ (s : ClockState) (p : PlayerKey), s.activePlayer = some p →
      s.times.get p = 0 → handleSwitch s = s) := by
  refine ⟨fun s p hr hs ha ht => ?_, fun s hr => ?_, fun s p ha ht => ?_⟩
  · cases p <;> simp_all [handleSwitch, Times.get, PlayerKey.other]
  · simp [handleSwitch, hr]
  · cases p <;> simp_all [handleSwitch, Times.get]

/-- Witness for C3 at the concrete mid-game state. -/
theorem c3_handleSwitch_witness :
    midGameState.isRunning = true ∧ midGameState.hasStarted = true ∧
    midGameState.activePlayer = some .p1 ∧ midGameState.times.get .p1 ≠ 0 ∧
    ((handleSwitch midGameState).times.get .p1 =
        midGameState.times.get .p1 + midGameState.settings.increment ∧
      (handleSwitch midGameState).times.get PlayerKey.p1.other =
        midGameState.times.get PlayerKey.p1.other ∧
      (handleSwitch midGameState).activePlayer = some PlayerKey.p1.other) :=
  ⟨rfl, rfl, rfl, by decide,
    c3_handleSwitch.1 midGameState .p1 rfl rfl rfl (by decide)⟩

/-- Counterexample to claim C5 as stated: in a reachable paused state with
`hasStarted = true`, `startFrom p2` is not a no-op (it changes the active
player and resumes the clock). -/
theorem c5_counterexample :
    pausedMidGame.hasStarted = true ∧ startFrom .p2 pausedMidGame ≠ pausedMidGame := by
  decide

/-- Amended claim C5: `startFrom` does not check `hasStarted`.  In any state
with `hasStarted = true`, unless both remaining times are zero it still sets
`activePlayer := player`, `isRunning := true` (and `hasStarted` stays true);
it is a no-op only when both remaining times are zero. -/
theorem c5_startFrom_ignores_hasStarted (s : ClockState) (p : PlayerKey)
    (_h : s.hasStarted = true) :
    (¬(s.times.p1 = 0 ∧ s.times.p2 = 0) →
      startFrom p s = { s with activePlayer := some p, hasStarted := true, isRunning := true }) ∧
    ((s.times.p1 = 0 ∧ s.times.p2 = 0) → startFrom p s = s) :=
  ⟨fun hz => by simp [startFrom, hz], fun hz => by simp [startFrom, hz]⟩

/-- Witness for the amended C5 at the concrete paused mid-game state. -/
theorem c5_startFrom_ignores_hasStarted_witness :
    pausedMidGame.hasStarted = true ∧
    ¬(pausedMidGame.times.p1 = 0 ∧ pausedMidGame.times.p2 = 0) ∧
    startFrom .p2 pausedMidGame =
      { pausedMidGame with
        activePlayer := some .p2, hasStarted := true, isRunning := true } :=
  ⟨by decide, by decide,
    (c5_startFrom_ignores_hasStarted pausedMidGame .p2 (by decide)).1 (by decide)⟩

/-- Claim C6: `resetClock` reloads both remaining times from the saved
settings, clears the active player and the started/running flags, clears all
beep flags, and keeps the settings themselves; it has no precondition, so
this holds in every state, mid-game or expired included. -/
theorem c6_resetClock (s : ClockState) :
    (resetClock s).times.p1 = toSeconds s.settings.p1Minutes s.settings.p1Seconds ∧
    (resetClock s).times.p2 = toSeconds s.settings.p2Minutes s.settings.p2Seconds ∧
    (resetClock s).activePlayer = none ∧
    (resetClock s).hasStarted = false ∧
    (resetClock s).isRunning = false ∧
    (resetClock s).beeped = emptyBeepState ∧
    (resetClock s).settings = s.settings :=
  ⟨rfl, rfl, rfl, rfl, rfl, rfl, rfl⟩

/-- Claim C7: with the game started, a player active and that player's time
nonzero, `toggleRunning` flips `isRunning` and changes nothing else; in an
expired state (active player's time zero), or with `hasStarted = false`, or
with no active player, it changes nothing. -/
theorem c7_toggleRunning :
    (∀ (s : ClockState) (p : PlayerKey), s.hasStarted = true →
      s.activePlayer = some p → s.times.get p ≠ 0 →
      toggleRunning s = { s with isRunning := !s.isRunning }) ∧
    (∀ (s : ClockState) (p : PlayerKey), s.activePlayer = some p →
      s.times.get p = 0 → toggleRunning s = s) ∧
    (∀ s : ClockState, s.hasStarted = false → toggleRunning s = s) ∧
    (∀ s : ClockState, s.activePlayer = none → toggleRunning s = s) := by
  refine ⟨fun s p hs ha ht => ?_, fun s p ha ht => ?_, fun s hs => ?_, fun s ha => ?_⟩
  · cases p <;> simp_all [toggleRunning, Times.get]
  · cases p <;> simp_all [toggleRunning, Times.get]
  · simp [toggleRunning, hs]
  · simp [toggleRunning, ha]

/-- Witness for C7 at the concrete paused mid-game state. -/
theorem c7_toggleRunning_witness :
    pausedMidGame.hasStarted = true ∧ pausedMidGame.activePlayer = some .p1 ∧
    pausedMidGame.times.get .p1 ≠ 0 ∧
    toggleRunning pausedMidGame = { pausedMidGame with isRunning := !pausedMidGame.isRunning } :=
  ⟨by decide, by decide, by decide,
    c7_toggleRunning.1 pausedMidGame .p1 (by decide) (by decide) (by decide)⟩

/-- Claim C8: in a not-yet-started idle state whose two remaining times are
both zero, `startFrom` (for either player) is a no-op and the state stays
idle. -/
theorem c8_startFrom_bothZero (s : ClockState) (p : PlayerKey)
    (h1 : s.hasStarted = false) (h2 : s.activePlayer = none)
    (h3 : s.isRunning = false) (h4 : s.times.p1 = 0) (h5 : s.times.p2 = 0) :
    startFrom p s = s ∧ (startFrom p s).activePlayer = none ∧
    (startFrom p s).hasStarted = false ∧ (startFrom p s).isRunning = false ∧
    (startFrom p s).times = s.times := by
  have hz : startFrom p s = s := by simp [startFrom, h4, h5]
  exact ⟨hz, by rw [hz, h2], by rw [hz, h1], by rw [hz, h3], by rw [hz]⟩

/-- Witness for C8 at the freshly configured all-zero state. -/
theorem c8_startFrom_bothZero_witness :
    (initClock cfgBothZero).hasStarted = false ∧
    (initClock cfgBothZero).activePlayer = none ∧
    (initClock cfgBothZero).isRunning = false ∧
    (initClock cfgBothZero).times.p1 = 0 ∧ (initClock cfgBothZero).times.p2 = 0 ∧
    startFrom .p1 (initClock cfgBothZero) = initClock cfgBothZero :=
  ⟨rfl, rfl, rfl, by decide, by decide,
    (c8_startFrom_bothZero (initClock cfgBothZero) .p1 rfl rfl rfl (by decide) (by decide)).1⟩

/-- Claim C10: `handleSaveSetup` clamps minutes to `[0, 999]`, seconds to
`[0, 59]` and the increment to `[0, 999]`; under `sameTime` it overwrites
player 2's minutes and seconds with player 1's; the remaining times are the
`toSeconds` of the normalised values, hence lie in `[0, 999*60+59]`, and
under `sameTime` both players get equal remaining time. -/
theorem c10_handleSaveSetup (setup : Settings) (s : ClockState) :
    (handleSaveSetup setup s).settings.p1Minutes = clampNumber setup.p1Minutes 0 999 ∧
    (handleSaveSetup setup s).settings.p1Seconds = clampNumber setup.p1Seconds 0 59 ∧
    (handleSaveSetup setup s).settings.increment = clampNumber setup.increment 0 999 ∧
    (setup.sameTime = true →
      (handleSaveSetup setup s).settings.p2Minutes = (handleSaveSetup setup s).settings.p1Minutes ∧
      (handleSaveSetup setup s).settings.p2Seconds = (handleSaveSetup setup s).settings.p1Seconds) ∧
    (setup.sameTime = false →
      (handleSaveSetup setup s).settings.p2Minutes = clampNumber setup.p2Minutes 0 999 ∧
      (handleSaveSetup setup s).settings.p2Seconds = clampNumber setup.p2Seconds 0 59) ∧
    (handleSaveSetup setup s).times.p1 =
      toSeconds (handleSaveSetup setup s).settings.p1Minutes
        (handleSaveSetup setup s).settings.p1Seconds ∧
    (handleSaveSetup setup s).times.p2 =
      toSeconds (handleSaveSetup setup s).settings.p2Minutes
        (handleSaveSetup setup s).settings.p2Seconds ∧
    0 ≤ (handleSaveSetup setup s).times.p1 ∧
    (handleSaveSetup setup s).times.p1 ≤ 999 * 60 + 59 ∧
    0 ≤ (handleSaveSetup setup s).times.p2 ∧
    (handleSaveSetup setup s).times.p2 ≤ 999 * 60 + 59 ∧
    (setup.sameTime = true →
      (handleSaveSetup setup s).times.p1 = (handleSaveSetup setup s).times.p2) := by
  cases hst : setup.sameTime <;>
    simp [handleSaveSetup, hst, toSeconds, clampNumber] <;>
    constructor <;> omega

/-- Witness for C10 at a concrete out-of-range setup. -/
theorem c10_handleSaveSetup_witness :
    cfgOutOfRange.sameTime = true ∧
    (handleSaveSetup cfgOutOfRange midGameState).times.p1 =
      (handleSaveSetup cfgOutOfRange midGameState).times.p2 :=
  ⟨rfl, (c10_handleSaveSetup cfgOutOfRange midGameState).2.2.2.2.2.2.2.2.2.2.2 rfl⟩

lemma invStarted_applyOp (s : ClockState) (op : ClockOp) (h : InvStarted s) :
    InvStarted (applyOp s op) := by
  cases op with
  | startFrom p =>
    simp only [applyOp, applyOpE, startFrom]
    split
    · exact h
    · intro hr
      simp
  | handleSwitch =>
    simp only [applyOp, applyOpE, handleSwitch]
    split
    · exact h
    · split
      · exact h
      · split
        · exact h
        · split
          · exact h
          · rename_i hns _ _
            intro hr
            simp_all [Bool.not_eq_true']
  | toggleRunning =>
    simp only [applyOp, applyOpE, toggleRunning]
    split
    · exact h
    · split
      · exact h
      · split
        · exact h
        · rename_i hns heq _
          intro hr
          simp_all [Bool.not_eq_true']
  | resetClock =>
    intro hr
    simp [applyOp, applyOpE, resetClock] at hr
  | handleSaveSetup setup =>
    intro hr
    simp [applyOp, applyOpE, handleSaveSetup] at hr
  | tick =>
    simp only [applyOp, applyOpE, tick]
    split
    · rename_i hrun
      split
      · exact h
      · rename_i heq
        intro hr
        exact ⟨(h hrun).1, by simp [heq]⟩
    · exact h

lemma invStarted_runOps (ops : List ClockOp) (s : ClockState) (h : InvStarted s) :
    InvStarted (runOps s ops) := by
  induction ops generalizing s with
  | nil => exact h
  | cons op ops ih => exact ih (applyOp s op) (invStarted_applyOp s op h)

lemma invStarted_initClock (setup : Settings) : InvStarted (initClock setup) := by
  intro hr
  simp [initClock, handleSaveSetup] at hr

/-- Counterexample to claim C1 as stated: from the fresh configuration
0:01 vs 0:00, the run `startFrom p1; handleSwitch` reaches a state that is
running while the active player's remaining time is zero. -/
theorem c1_counterexample :
    switchToDeadState.isRunning = true ∧
    switchToDeadState.activePlayer = some .p2 ∧
    ¬(0 < switchToDeadState.times.get .p2) := by
  decide

/-- Amended claim C1: in every state reachable from a freshly configured
state by the public operations and ticks, `isRunning` implies `hasStarted`
and a non-null `activePlayer`.  (The spec's further conjunct
`remaining[activePlayer] > 0` fails, see the counterexample.) -/
theorem c1_running_implies_started (setup : Settings) (ops : List ClockOp)
    (h : (runOps (initClock setup) ops).isRunning = true) :
    (runOps (initClock setup) ops).hasStarted = true ∧
    (runOps (initClock setup) ops).activePlayer ≠ none :=
  invStarted_runOps ops (initClock setup) (invStarted_initClock setup) h

/-- Witness for the amended C1 on a concrete one-operation run. -/
theorem c1_running_implies_started_witness :
    (runOps (initClock defaultSettings) [.startFrom .p1]).isRunning = true ∧
    ((runOps (initClock defaultSettings) [.startFrom .p1]).hasStarted = true ∧
      (runOps (initClock defaultSettings) [.startFrom .p1]).activePlayer ≠ none) :=
  ⟨by decide, c1_running_implies_started defaultSettings [.startFrom .p1] (by decide)⟩

lemma tick_fst_not_running (s : ClockState) (h : s.isRunning = false) :
    (tick s).1 = s := by
  simp [tick, h]

lemma tick_fst_activePlayer (s : ClockState) : (tick s).1.activePlayer = s.activePlayer := by
  rw [tick]
  split
  · split <;> rfl
  · rfl

lemma tick_fst_hasStarted (s : ClockState) : (tick s).1.hasStarted = s.hasStarted := by
  rw [tick]
  split
  · split <;> rfl
  · rfl

lemma tick_fst_times_active (s : ClockState) (p : PlayerKey)
    (hr : s.isRunning = true) (ha : s.activePlayer = some p) :
    (tick s).1.times.get p = max 0 (s.times.get p - 1) := by
  cases p <;> simp only [tick, hr, ha, if_true] <;> simp [Times.get]

lemma tick_fst_isRunning_iff (s : ClockState) (p : PlayerKey)
    (hr : s.isRunning = true) (ha : s.activePlayer = some p) :
    ((tick s).1.isRunning = true ↔ ¬max 0 (s.times.get p - 1) = 0) := by
  simp only [tick, hr, ha, if_true]
  split <;> simp_all

lemma tickN_not_running (n : Nat) (s : ClockState) (h : s.isRunning = false) :
    tickN n s = s := by
  induction n with
  | zero => rfl
  | succ n ih =>
    show tickN n (tick s).1 = s
    rw [tick_fst_not_running s h, ih]

lemma tickN_char (n : Nat) : ∀ (s : ClockState) (p : PlayerKey) (r : Int),
    s.isRunning = true → s.activePlayer = some p → s.times.get p = r → 0 ≤ r →
    (tickN n s).times.get p = max 0 (r - (n : Int)) ∧
    ((tickN n s).isRunning = true ↔ (n = 0 ∨ (n : Int) < r)) := by
  induction n with
  | zero =>
    intro s p r hr ha ht h0
    constructor
    · rw [show tickN 0 s = s from rfl, ht]
      push_cast
      omega
    · rw [show tickN 0 s = s from rfl]
      simp [hr]
  | succ n ih =>
    intro s p r hr ha ht h0
    have hstep : tickN (n + 1) s = tickN n (tick s).1 := rfl
    have ha1 : (tick s).1.activePlayer = some p := by rw [tick_fst_activePlayer, ha]
    have ht1 : (tick s).1.times.get p = max 0 (r - 1) := by
      rw [tick_fst_times_active s p hr ha, ht]
    have hrun1 := tick_fst_isRunning_iff s p hr ha
    rw [ht] at hrun1
    rw [hstep]
    by_cases hc : max 0 (r - 1) = 0
    · have hstop : (tick s).1.isRunning = false := by
        cases h' : (tick s).1.isRunning with
        | false => rfl
        | true => exact absurd hc (hrun1.mp h')
      rw [tickN_not_running n _ hstop, ht1]
      constructor
      · push_cast
        omega
      · rw [hstop]
        constructor
        · intro hcontra
          cases hcontra
        · intro hor
          exfalso
          rcases hor with h1 | h1
          · cases h1
          · push_cast at h1
            omega
    · have hrun1' : (tick s).1.isRunning = true := hrun1.mpr hc
      obtain ⟨htn, hrn⟩ := ih (tick s).1 p (max 0 (r - 1)) hrun1' ha1 ht1 (by omega)
      constructor
      · rw [htn]
        push_cast
        omega
      · rw [hrn]
        constructor
        · intro hor
          right
          rcases hor with h1 | h1
          · push_cast
            omega
          · push_cast at h1 ⊢
            omega
        · intro hor
          rcases hor with h1 | h1
          · cases h1
          · by_cases hn : n = 0
            · exact Or.inl hn
            · right
              push_cast at h1 ⊢
              omega

/-- Claim C2: from an active state (started, running, player `p` on the move
with remaining time `r ≥ 0`), `n` ticks leave `p` with `max 0 (r - n)`
seconds; the clock is still running after `n` ticks exactly when no tick has
brought the time to zero (`n = 0` or `n < r`), and in particular at the tick
where the remaining time reaches 0 the countdown halts. -/
theorem c2_tick_countdown (s : ClockState) (p : PlayerKey) (r : Int) (n : Nat)
    (_hst : s.hasStarted = true) (hr : s.isRunning = true)
    (ha : s.activePlayer = some p) (ht : s.times.get p = r) (h0 : 0 ≤ r) :
    (tickN n s).times.get p = max 0 (r - (n : Int)) ∧
    ((tickN n s).isRunning = true ↔ (n = 0 ∨ (n : Int) < r)) ∧
    (r ≤ (n : Int) → 1 ≤ n → (tickN n s).isRunning = false) := by
  obtain ⟨h1, h2⟩ := tickN_char n s p r hr ha ht h0
  refine ⟨h1, h2, fun hge hn => ?_⟩
  cases h' : (tickN n s).isRunning with
  | false => rfl
  | true =>
    rcases h2.mp h' with h3 | h3
    · omega
    · omega

/-- Witness for C2: three ticks on the fresh default game leave 597 seconds
and the clock running. -/
theorem c2_tick_countdown_witness :
    runningFromDefault.hasStarted = true ∧ runningFromDefault.isRunning = true ∧
    runningFromDefault.activePlayer = some .p1 ∧
    runningFromDefault.times.get .p1 = 600 ∧ (0 : Int) ≤ 600 ∧
    ((tickN 3 runningFromDefault).times.get .p1 = max 0 (600 - ((3 : Nat) : Int)) ∧
      ((tickN 3 runningFromDefault).isRunning = true ↔ (3 = 0 ∨ ((3 : Nat) : Int) < 600)) ∧
      ((600 : Int) ≤ ((3 : Nat) : Int) → 1 ≤ 3 → (tickN 3 runningFromDefault).isRunning = false)) :=
  ⟨rfl, rfl, rfl, by decide, by decide,
    c2_tick_countdown runningFromDefault .p1 600 3 rfl rfl rfl (by decide) (by decide)⟩

lemma maybeBeepAt_snd (player : PlayerKey) (nextTime : Int) (b : BeepState) :
    (maybeBeepAt player nextTime b).2 =
      (if nextTime = 30 ∧ (b.get player).thirty = false then [⟨player, .thirty⟩] else []) ++
      (if nextTime = 10 ∧ (b.get player).ten = false then [⟨player, .ten⟩] else []) := by
  by_cases hle : nextTime ≤ 0
  · have h30 : ¬(nextTime = 30 ∧ (b.get player).thirty = false) := by omega
    have h10 : ¬(nextTime = 10 ∧ (b.get player).ten = false) := by omega
    simp [maybeBeepAt, hle, h30, h10]
  · rw [maybeBeepAt, if_neg hle]
    simp only [Bool.and_eq_true, beq_iff_eq, Bool.not_eq_true']

lemma maybeBeepAt_fst (player : PlayerKey) (nextTime : Int) (b : BeepState) :
    (maybeBeepAt player nextTime b).1 =
      if nextTime = 30 ∧ (b.get player).thirty = false then
        b.set player { b.get player with thirty := true }
      else if nextTime = 10 ∧ (b.get player).ten = false then
        b.set player { b.get player with ten := true }
      else b := by
  by_cases hle : nextTime ≤ 0
  · have h30 : ¬(nextTime = 30 ∧ (b.get player).thirty = false) := by omega
    have h10 : ¬(nextTime = 10 ∧ (b.get player).ten = false) := by omega
    simp [maybeBeepAt, hle, h30, h10]
  · rw [maybeBeepAt, if_neg hle]
    simp only [Bool.and_eq_true, beq_iff_eq, Bool.not_eq_true']
    by_cases h30 : nextTime = 30 ∧ (b.get player).thirty = false <;>
      by_cases h10 : nextTime = 10 ∧ (b.get player).ten = false <;>
        simp [h30, h10]

lemma tick_snd_mem (s : ClockState) (p : PlayerKey) (k : BeepKind) :
    BeepEvent.mk p k ∈ (tick s).2 ↔
      (s.isRunning = true ∧ s.activePlayer = some p ∧
        max 0 (s.times.get p - 1) = thresholdOf k ∧ s.beeped.getFlag p k = false) := by
  rw [tick]
  split
  · rename_i hrun
    split
    · rename_i hnone
      simp [hnone]
    · rename_i q hq
      simp only [maybeBeepAt_snd, List.mem_append, hq, hrun]
      cases k <;> cases q <;> cases p <;>
        split_ifs <;>
          simp_all [thresholdOf, BeepState.getFlag]
  · rename_i hrun
    simp at hrun
    simp [hrun]

lemma tick_flag_iff (s : ClockState) (p : PlayerKey) (k : BeepKind) :
    ((tick s).1.beeped.getFlag p k = true ↔
      (s.beeped.getFlag p k = true ∨ BeepEvent.mk p k ∈ (tick s).2)) := by
  rw [tick]
  split
  · rename_i hrun
    split
    · simp
    · rename_i q hq
      simp only [maybeBeepAt_snd, maybeBeepAt_fst, List.mem_append]
      cases k <;> cases q <;> cases p <;>
        split_ifs <;>
          simp_all [thresholdOf, BeepState.getFlag, BeepState.get, BeepState.set]
  · simp

lemma eventCount_append (p : PlayerKey) (k : BeepKind) (l1 l2 : List BeepEvent) :
    eventCount p k (l1 ++ l2) = eventCount p k l1 + eventCount p k l2 := by
  simp [eventCount, List.filter_append]

lemma eventCount_eq_zero (p : PlayerKey) (k : BeepKind) (l : List BeepEvent)
    (h : BeepEvent.mk p k ∉ l) : eventCount p k l = 0 := by
  simp only [eventCount, List.length_eq_zero, List.filter_eq_nil_iff]
  intro e he
  simp only [decide_eq_true_eq, not_and]
  intro h1 h2
  cases e
  simp_all

lemma eventCount_tick_le_one (s : ClockState) (p : PlayerKey) (k : BeepKind) :
    eventCount p k (tick s).2 ≤ 1 := by
  rw [tick]
  split
  · split
    · simp [eventCount]
    · rename_i q hq
      rw [maybeBeepAt_snd, eventCount_append]
      cases k <;> cases q <;> cases p <;> split_ifs <;> simp [eventCount]
  · simp [eventCount]

lemma startFrom_beeped (pl : PlayerKey) (s : ClockState) :
    (startFrom pl s).beeped = s.beeped := by
  rw [startFrom]
  split <;> rfl

lemma handleSwitch_beeped (s : ClockState) : (handleSwitch s).beeped = s.beeped := by
  rw [handleSwitch]
  split
  · rfl
  · split
    · rfl
    · split
      · rfl
      · split <;> rfl

lemma toggleRunning_beeped (s : ClockState) : (toggleRunning s).beeped = s.beeped := by
  rw [toggleRunning]
  split
  · rfl
  · split
    · rfl
    · split <;> rfl

lemma beep_step (s : ClockState) (op : ClockOp) (p : PlayerKey) (k : BeepKind)
    (hop : clearsBeeps op = false) :
    eventCount p k (applyOpE s op).2 +
        (if (applyOp s op).beeped.getFlag p k = true then 0 else 1) ≤
      (if s.beeped.getFlag p k = true then 0 else 1) := by
  cases op with
  | startFrom pl => simp [applyOpE, applyOp, eventCount, startFrom_beeped]
  | handleSwitch => simp [applyOpE, applyOp, eventCount, handleSwitch_beeped]
  | toggleRunning => simp [applyOpE, applyOp, eventCount, toggleRunning_beeped]
  | resetClock => simp [clearsBeeps] at hop
  | handleSaveSetup setup => simp [clearsBeeps] at hop
  | tick =>
    have hflag := tick_flag_iff s p k
    by_cases hm : BeepEvent.mk p k ∈ (tick s).2
    · have h1 : (tick s).1.beeped.getFlag p k = true := hflag.mpr (Or.inr hm)
      have h2 : s.beeped.getFlag p k = false := ((tick_snd_mem s p k).mp hm).2.2.2
      have h3 := eventCount_tick_le_one s p k
      simp only [applyOpE, applyOp, h1, h2]
      simp [h3]
    · have h0 : eventCount p k (tick s).2 = 0 := eventCount_eq_zero p k _ hm
      have hsame : (tick s).1.beeped.getFlag p k = s.beeped.getFlag p k := by
        cases hsf : s.beeped.getFlag p k with
        | true => exact hflag.mpr (Or.inl hsf)
        | false =>
          cases hsf' : (tick s).1.beeped.getFlag p k with
          | false => rfl
          | true =>
            rcases hflag.mp hsf' with hcase | hcase
            · rw [hsf] at hcase
              cases hcase
            · exact absurd hcase hm
      simp [applyOpE, applyOp, h0, hsame]

lemma runEvents_count_le (p : PlayerKey) (k : BeepKind) :
    ∀ (ops : List ClockOp) (s : ClockState), (∀ op ∈ ops, clearsBeeps op = false) →
    eventCount p k (runEvents s ops) ≤ (if s.beeped.getFlag p k = true then 0 else 1) := by
  intro ops
  induction ops with
  | nil => intro s _; simp [runEvents, eventCount]
  | cons op ops ih =>
    intro s h
    have hstep := beep_step s op p k (h op (List.mem_cons_self op ops))
    have hrest := ih (applyOp s op) (fun o ho => h o (List.mem_cons_of_mem op ho))
    rw [show runEvents s (op :: ops) = (applyOpE s op).2 ++ runEvents (applyOp s op) ops from rfl]
    rw [eventCount_append]
    by_cases h1 : (applyOp s op).beeped.getFlag p k = true <;>
      by_cases h2 : s.beeped.getFlag p k = true <;>
        simp [h1, h2] at hstep hrest ⊢ <;> omega

lemma emptyBeepState_getFlag (p : PlayerKey) (k : BeepKind) :
    emptyBeepState.getFlag p k = false := by
  cases p <;> cases k <;> rfl

/-- Claim C4: threshold notifications.  A thirty-second (resp. ten-second)
notification for player `p` is emitted exactly at a tick that runs for `p`
and whose post-decrement remaining value is exactly 30 (resp. 10) while the
corresponding flag is unset; no operation other than the tick emits one;
starting from cleared flags, a game segment containing no `resetClock` and
no `handleSaveSetup` emits at most one notification per player and
threshold; `resetClock` and `handleSaveSetup` clear all four flags; and no
other operation clears a set flag. -/
theorem c4_threshold_beeps :
    (∀ (s : ClockState) (p : PlayerKey), BeepEvent.mk p .thirty ∈ (tick s).2 ↔
      (s.isRunning = true ∧ s.activePlayer = some p ∧
        max 0 (s.times.get p - 1) = 30 ∧ (s.beeped.get p).thirty = false)) ∧
    (∀ (s : ClockState) (p : PlayerKey), BeepEvent.mk p .ten ∈ (tick s).2 ↔
      (s.isRunning = true ∧ s.activePlayer = some p ∧
        max 0 (s.times.get p - 1) = 10 ∧ (s.beeped.get p).ten = false)) ∧
    (∀ (s : ClockState) (op : ClockOp) (e : BeepEvent),
      e ∈ (applyOpE s op).2 → op = .tick) ∧
    (∀ (s : ClockState) (ops : List ClockOp) (p : PlayerKey) (k : BeepKind),
      s.beeped = emptyBeepState → (∀ op ∈ ops, clearsBeeps op = false) →
      eventCount p k (runEvents s ops) ≤ 1) ∧
    (∀ (s : ClockState) (setup : Settings),
      (resetClock s).beeped = emptyBeepState ∧
      (handleSaveSetup setup s).beeped = emptyBeepState) ∧
    (∀ (s : ClockState) (op : ClockOp) (p : PlayerKey) (k : BeepKind),
      clearsBeeps op = false → s.beeped.getFlag p k = true →
      (applyOp s op).beeped.getFlag p k = true) := by
  refine ⟨fun s p => tick_snd_mem s p .thirty, fun s p => tick_snd_mem s p .ten,
    ?_, ?_, fun s setup => ⟨rfl, rfl⟩, ?_⟩
  · intro s op e he
    cases op <;> simp [applyOpE] at he ⊢
  · intro s ops p k hempty hops
    have h := runEvents_count_le p k ops s hops
    rw [hempty] at h
    rw [emptyBeepState_getFlag] at h
    simpa using h
  · intro s op p k hop hflag
    cases op with
    | startFrom pl => rw [show applyOp s (.startFrom pl) = startFrom pl s from rfl, startFrom_beeped]; exact hflag
    | handleSwitch => rw [show applyOp s .handleSwitch = handleSwitch s from rfl, handleSwitch_beeped]; exact hflag
    | toggleRunning => rw [show applyOp s .toggleRunning = toggleRunning s from rfl, toggleRunning_beeped]; exact hflag
    | resetClock => simp [clearsBeeps] at hop
    | handleSaveSetup setup => simp [clearsBeeps] at hop
    | tick => exact (tick_flag_iff s p k).mpr (Or.inl hflag)

/-- Witness for C4: a tick does not clear an already-set thirty-second flag
at a concrete mid-game state. -/
theorem c4_threshold_beeps_witness :
    clearsBeeps .tick = false ∧ flaggedState.beeped.getFlag .p1 .thirty = true ∧
    (applyOp flaggedState .tick).beeped.getFlag .p1 .thirty = true :=
  ⟨rfl, rfl, c4_threshold_beeps.2.2.2.2.2 flaggedState .tick .p1 .thirty rfl rfl⟩

lemma natDigitsRev_lt (n : Nat) (h : n < 10) : natDigitsRev n = [Nat.digitChar n] := by
  rw [natDigitsRev, dif_pos h]

lemma natDigitsRev_ge (n : Nat) (h : 10 ≤ n) :
    natDigitsRev n = Nat.digitChar (n % 10) :: natDigitsRev (n / 10) := by
  rw [natDigitsRev, dif_neg (by omega)]

lemma natDigitsRev_length_pos (n : Nat) : 1 ≤ (natDigitsRev n).length := by
  by_cases h : n < 10
  · rw [natDigitsRev_lt n h]
    simp
  · rw [natDigitsRev_ge n (by omega)]
    simp

lemma natToChars_length_lt (n : Nat) (h : n < 10) : (natToChars n).length = 1 := by
  rw [natToChars, natDigitsRev_lt n h]
  rfl

lemma natToChars_length_ge (n : Nat) (h : 10 ≤ n) : 2 ≤ (natToChars n).length := by
  rw [natToChars, natDigitsRev_ge n h]
  simp only [List.reverse_cons, List.length_append, List.length_reverse, List.length_cons,
    List.length_nil]
  have := natDigitsRev_length_pos (n / 10)
  omega

lemma padStart_eq_zeroPad2 (n : Nat) : padStart (natToChars n) 2 '0' = zeroPad2 n := by
  by_cases h : n < 10
  · rw [padStart, zeroPad2, if_pos h, natToChars_length_lt n h]
    rfl
  · rw [padStart, zeroPad2, if_neg h]
    have h2 := natToChars_length_ge n (by omega)
    rw [show 2 - (natToChars n).length = 0 from by omega]
    rfl

lemma digitVal_digitChar (d : Nat) (h : d < 10) : digitVal (Nat.digitChar d) = d := by
  interval_cases d <;> rfl

lemma charsToNat_concat (s : List Char) (c : Char) :
    charsToNat (s ++ [c]) = 10 * charsToNat s + digitVal c := by
  simp [charsToNat, List.foldl_append]

lemma charsToNat_natToChars (n : Nat) : charsToNat (natToChars n) = n := by
  induction n using Nat.strong_induction_on with
  | _ n ih =>
    by_cases h : n < 10
    · rw [natToChars, natDigitsRev_lt n h]
      simp [charsToNat, digitVal_digitChar n h]
    · rw [natToChars, natDigitsRev_ge n (by omega)]
      rw [List.reverse_cons]
      rw [show (natDigitsRev (n / 10)).reverse = natToChars (n / 10) from rfl]
      rw [charsToNat_concat, ih (n / 10) (by omega), digitVal_digitChar _ (by omega)]
      omega

lemma zeroPad2_length (n : Nat) : 2 ≤ (zeroPad2 n).length := by
  rw [zeroPad2]
  by_cases h : n < 10
  · rw [if_pos h]
    simp [natToChars_length_lt n h]
  · rw [if_neg h]
    exact natToChars_length_ge n (by omega)

/-- Claim C9: `formatTime` renders `totalSeconds / 60` as the minutes field
and `totalSeconds % 60` as the seconds field, each the decimal rendering of
that number zero-padded to at least two digits, joined by a colon.  The
`charsToNat` conjuncts certify that the two fields really are decimal
renderings of quotient and remainder, and the length conjuncts the
two-digit padding. -/
theorem c9_formatTime (totalSeconds : Nat) :
    formatTime totalSeconds =
      zeroPad2 (totalSeconds / 60) ++ [':'] ++ zeroPad2 (totalSeconds % 60) ∧
    charsToNat (natToChars (totalSeconds / 60)) = totalSeconds / 60 ∧
    charsToNat (natToChars (totalSeconds % 60)) = totalSeconds % 60 ∧
    2 ≤ (zeroPad2 (totalSeconds / 60)).length ∧
    2 ≤ (zeroPad2 (totalSeconds % 60)).length := by
  refine ⟨?_, charsToNat_natToChars _, charsToNat_natToChars _, zeroPad2_length _,
    zeroPad2_length _⟩
  rw [formatTime, padStart_eq_zeroPad2, padStart_eq_zeroPad2]
